import Mathlib

/-!
Verification of the chainerx native arithmetic kernels
(chainerx_cc/chainerx/native/native_device/arithmetic.cc).

The element-level arithmetic is embedded directly from the source:
machine integers are modelled as Int with explicit two's-complement
wrapping where the source performs a narrowing cast, and the C
truncating division of std::div is Int.tdiv / Int.tmod.

Floating-point values are modelled exactly: a float is either a finite
value, carried as an exact rational, or a non-finite value (NaN or an
infinity; no claim here distinguishes them).  Arithmetic on finite
values is exact rational arithmetic; this is faithful wherever every
intermediate value is exactly representable in the concrete format,
which holds at every concrete input evaluated below.  fmod of a finite
value by zero is NaN, as in C.

The dtype enumeration, the visit-by-dtype dispatch machinery, the
ArithmeticOps per-element transforms and the element-wise execution
engine live in headers outside the given source file; they are
modelled from the specification where marked.
-/

/-- Modelled from the spec: the runtime element-type enumeration of the
dtype dispatch machinery (dtype.h, outside the given source).  The spec
catalog lists the eight numeric types; the repository additionally has a
boolean dtype, which is the non-numeric type accepted only by the full
visitor. -/
inductive Dtype where
  | boolean : Dtype
  | int8 : Dtype
  | int16 : Dtype
  | int32 : Dtype
  | int64 : Dtype
  | uint8 : Dtype
  | float16 : Dtype
  | float32 : Dtype
  | float64 : Dtype
deriving DecidableEq

/-- Modelled from the spec: numeric dtypes are all dtypes except boolean. -/
def Dtype.isNumeric : Dtype → Bool
  | .boolean => false
  | _ => true

/-- Modelled from the spec: integral dtypes are the signed and unsigned
integer dtypes. -/
def Dtype.isIntegral : Dtype → Bool
  | .int8 | .int16 | .int32 | .int64 | .uint8 => true
  | _ => false

/-- The floating-point dtypes. -/
def Dtype.isFloat : Dtype → Bool
  | .float16 | .float32 | .float64 => true
  | _ => false

/-- Exact model of a C floating-point value: a finite value carried as
an exact rational, or a non-finite value (NaN or an infinity; the
claims checked here never distinguish them, so one token suffices). -/
inductive Flt where
  | nonfin : Flt
  | fin : ℚ → Flt
deriving DecidableEq

/-- Truncation toward zero, as C float-to-integer conversion and the
quotient underlying fmod. -/
def truncQ (q : ℚ) : Int := if 0 ≤ q then ⌊q⌋ else ⌈q⌉

/-- Float addition; exact on finite values, non-finite propagates. -/
def Flt.add : Flt → Flt → Flt
  | .fin a, .fin b => .fin (a + b)
  | _, _ => .nonfin

/-- Float subtraction; exact on finite values, non-finite propagates. -/
def Flt.sub : Flt → Flt → Flt
  | .fin a, .fin b => .fin (a - b)
  | _, _ => .nonfin

/-- Float multiplication; exact on finite values, non-finite propagates. -/
def Flt.mul : Flt → Flt → Flt
  | .fin a, .fin b => .fin (a * b)
  | _, _ => .nonfin

/-- Float division; exact on finite values.  A finite value divided by
zero is non-finite in C (an infinity or NaN), hence nonfin here. -/
def Flt.div : Flt → Flt → Flt
  | .fin a, .fin b => if b = 0 then .nonfin else .fin (a / b)
  | _, _ => .nonfin

/-- C fmod: for finite x, y with y not zero the result x - y * trunc(x / y)
is exact (a theorem of IEEE arithmetic); fmod(x, 0) is NaN. -/
def Flt.fmod : Flt → Flt → Flt
  | .fin a, .fin b => if b = 0 then .nonfin else .fin (a - b * (truncQ (a / b) : ℚ))
  | _, _ => .nonfin

/-- C float less-than as a Bool; any comparison with NaN is false.  The
nonfin token is only compared after arising from fmod, where it stands
for NaN, so returning false on it is faithful. -/
def Flt.ltb : Flt → Flt → Bool
  | .fin a, .fin b => decide (a < b)
  | _, _ => false

/-- Two's-complement narrowing to int8: C static_cast to int8_t. -/
def castInt8 (n : Int) : Int := Int.bmod n (2 ^ 8)

/-- Two's-complement narrowing to int16: C static_cast to int16_t. -/
def castInt16 (n : Int) : Int := Int.bmod n (2 ^ 16)

/-- Two's-complement narrowing to int32: C static_cast to int32_t.
On values already in int32 range (in particular any int8 or int16
value being widened) this is the identity. -/
def castInt32 (n : Int) : Int := Int.bmod n (2 ^ 32)

/-- Two's-complement narrowing to int64: C static_cast to int64_t. -/
def castInt64 (n : Int) : Int := Int.bmod n (2 ^ 64)

/-- Wrap-around to uint8: C conversion to uint8_t (reduction mod 256). -/
def castUint8 (n : Int) : Int := n % (2 ^ 8)

/-- FloorDivide(int32_t, int32_t): zero divisor yields 0; otherwise the
truncating quotient of std::div, minus 1 when the remainder (negated
for a negative divisor) is negative. -/
def FloorDivide.int32 (x y : Int) : Int :=
  if y = 0 then 0
  else Int.tdiv x y - (if (if 0 ≤ y then Int.tmod x y else -(Int.tmod x y)) < 0 then 1 else 0)

/-- FloorDivide(int64_t, int64_t): same computation as the 32-bit
overload. -/
def FloorDivide.int64 (x y : Int) : Int :=
  if y = 0 then 0
  else Int.tdiv x y - (if (if 0 ≤ y then Int.tmod x y else -(Int.tmod x y)) < 0 then 1 else 0)

/-- FloorDivide(int8_t, int8_t): widen both operands to int32, apply the
32-bit overload, narrow the result back to int8. -/
def FloorDivide.int8 (x y : Int) : Int :=
  castInt8 (FloorDivide.int32 (castInt32 x) (castInt32 y))

/-- FloorDivide(int16_t, int16_t): widen both operands to int32, apply
the 32-bit overload, narrow the result back to int16. -/
def FloorDivide.int16 (x y : Int) : Int :=
  castInt16 (FloorDivide.int32 (castInt32 x) (castInt32 y))

/-- FloorDivide(uint8_t, uint8_t): zero divisor yields 0; otherwise
plain unsigned division.  Division here is Euclidean division, which on
the nonnegative uint8 range coincides with C unsigned division. -/
def FloorDivide.uint8 (x y : Int) : Int :=
  if y = 0 then 0 else x / y

/-- FloorDivide(float, float): rem = fmod(x, y); (x - rem) / y, minus 1
when rem is negative with positive divisor or positive with negative
divisor. -/
def FloorDivide.float32 (x y : Flt) : Flt :=
  let rem := Flt.fmod x y
  Flt.sub (Flt.div (Flt.sub x rem) y)
    (if (Flt.ltb rem (Flt.fin 0) && Flt.ltb (Flt.fin 0) y)
        || (Flt.ltb (Flt.fin 0) rem && Flt.ltb y (Flt.fin 0)) then Flt.fin 1 else Flt.fin 0)

/-- FloorDivide(double, double): same computation as the float overload. -/
def FloorDivide.float64 (x y : Flt) : Flt :=
  let rem := Flt.fmod x y
  Flt.sub (Flt.div (Flt.sub x rem) y)
    (if (Flt.ltb rem (Flt.fin 0) && Flt.ltb (Flt.fin 0) y)
        || (Flt.ltb (Flt.fin 0) rem && Flt.ltb y (Flt.fin 0)) then Flt.fin 1 else Flt.fin 0)

/-- C static_cast from Float16 to float: exact in IEEE (every half value
is a float value), the identity in this exact model. -/
def floatOfHalf (x : Flt) : Flt := x

/-- C Float16 construction from a float: rounds to nearest half in IEEE;
the identity in this exact model, faithful whenever the value is exactly
representable as a half, which holds at every concrete input below. -/
def halfOfFloat (x : Flt) : Flt := x

/-- FloorDivide(Float16, Float16): promote both operands to float, apply
the float overload, narrow the result back to Float16. -/
def FloorDivide.float16 (x y : Flt) : Flt :=
  halfOfFloat (FloorDivide.float32 (floatOfHalf x) (floatOfHalf y))

/-- Modelled from the spec: the static representation each runtime dtype
dispatches to.  Integer dtypes execute on Int (with explicit wrapping in
the operations), float dtypes on the exact float model, boolean on Bool. -/
@[reducible] def Dtype.carrier : Dtype → Type
  | .boolean => Bool
  | .int8 => Int
  | .int16 => Int
  | .int32 => Int
  | .int64 => Int
  | .uint8 => Int
  | .float16 => Flt
  | .float32 => Flt
  | .float64 => Flt

instance Dtype.decEqCarrier : (dt : Dtype) → DecidableEq dt.carrier
  | .boolean => inferInstanceAs (DecidableEq Bool)
  | .int8 => inferInstanceAs (DecidableEq Int)
  | .int16 => inferInstanceAs (DecidableEq Int)
  | .int32 => inferInstanceAs (DecidableEq Int)
  | .int64 => inferInstanceAs (DecidableEq Int)
  | .uint8 => inferInstanceAs (DecidableEq Int)
  | .float16 => inferInstanceAs (DecidableEq Flt)
  | .float32 => inferInstanceAs (DecidableEq Flt)
  | .float64 => inferInstanceAs (DecidableEq Flt)

/-- ArithmeticOps Add per dtype (arithmetic_ops.h, outside the given
source; spec section 4.3): a + b with the native overflow behavior of the
execution type, which wraps for the integer dtypes.  On boolean, C adds
the promoted ints and converts back, giving logical or. -/
def addOp : (dt : Dtype) → dt.carrier → dt.carrier → dt.carrier
  | .boolean, a, b => a || b
  | .int8, a, b => castInt8 (a + b)
  | .int16, a, b => castInt16 (a + b)
  | .int32, a, b => castInt32 (a + b)
  | .int64, a, b => castInt64 (a + b)
  | .uint8, a, b => castUint8 (a + b)
  | .float16, a, b => Flt.add a b
  | .float32, a, b => Flt.add a b
  | .float64, a, b => Flt.add a b

/-- ArithmeticOps Subtract per dtype (spec section 4.3): a - b wrapping
on integers.  The boolean branch is never instantiated in C (the kernel
visits numeric dtypes only); the natural C semantics, converting the
promoted difference back to bool, is given for totality. -/
def subtractOp : (dt : Dtype) → dt.carrier → dt.carrier → dt.carrier
  | .boolean, a, b => a != b
  | .int8, a, b => castInt8 (a - b)
  | .int16, a, b => castInt16 (a - b)
  | .int32, a, b => castInt32 (a - b)
  | .int64, a, b => castInt64 (a - b)
  | .uint8, a, b => castUint8 (a - b)
  | .float16, a, b => Flt.sub a b
  | .float32, a, b => Flt.sub a b
  | .float64, a, b => Flt.sub a b

/-- ArithmeticOps Multiply per dtype (spec section 4.3): a * b wrapping
on integers; logical and on boolean. -/
def multiplyOp : (dt : Dtype) → dt.carrier → dt.carrier → dt.carrier
  | .boolean, a, b => a && b
  | .int8, a, b => castInt8 (a * b)
  | .int16, a, b => castInt16 (a * b)
  | .int32, a, b => castInt32 (a * b)
  | .int64, a, b => castInt64 (a * b)
  | .uint8, a, b => castUint8 (a * b)
  | .float16, a, b => Flt.mul a b
  | .float32, a, b => Flt.mul a b
  | .float64, a, b => Flt.mul a b

/-- ArithmeticOps Divide per dtype (spec section 4.3): native division of
the execution type, no zero guard.  Integer division is the C truncating
division; C division by zero is undefined for integers, where Int.tdiv
gives 0.  Boolean division divides the promoted ints and converts back;
a zero divisor is undefined in C, modelled as false. -/
def divideOp : (dt : Dtype) → dt.carrier → dt.carrier → dt.carrier
  | .boolean, a, b => if b then a else false
  | .int8, a, b => castInt8 (Int.tdiv a b)
  | .int16, a, b => castInt16 (Int.tdiv a b)
  | .int32, a, b => castInt32 (Int.tdiv a b)
  | .int64, a, b => castInt64 (Int.tdiv a b)
  | .uint8, a, b => castUint8 (Int.tdiv a b)
  | .float16, a, b => Flt.div a b
  | .float32, a, b => Flt.div a b
  | .float64, a, b => Flt.div a b

/-- The FloorDivide per-element transform: dispatches to the overload of
the execution type.  The boolean branch is never instantiated in C (the
kernel visits numeric dtypes only); false is given for totality. -/
def floorDivideOp : (dt : Dtype) → dt.carrier → dt.carrier → dt.carrier
  | .boolean, _, _ => false
  | .int8, a, b => FloorDivide.int8 a b
  | .int16, a, b => FloorDivide.int16 a b
  | .int32, a, b => FloorDivide.int32 a b
  | .int64, a, b => FloorDivide.int64 a b
  | .uint8, a, b => FloorDivide.uint8 a b
  | .float16, a, b => FloorDivide.float16 a b
  | .float32, a, b => FloorDivide.float32 a b
  | .float64, a, b => FloorDivide.float64 a b

/-- Bitwise and per dtype: a & b.  Int.land is two's-complement bitwise
and, matching the fixed-width operation on in-range operands.  The
boolean and float branches are never instantiated in C (the kernel
visits integral dtypes only); totality values are given. -/
def bitwiseAndOp : (dt : Dtype) → dt.carrier → dt.carrier → dt.carrier
  | .boolean, a, b => a && b
  | .int8, a, b => Int.land a b
  | .int16, a, b => Int.land a b
  | .int32, a, b => Int.land a b
  | .int64, a, b => Int.land a b
  | .uint8, a, b => Int.land a b
  | .float16, a, _ => a
  | .float32, a, _ => a
  | .float64, a, _ => a

/-- Bitwise or per dtype: a | b; see bitwiseAndOp on the unvisited
branches. -/
def bitwiseOrOp : (dt : Dtype) → dt.carrier → dt.carrier → dt.carrier
  | .boolean, a, b => a || b
  | .int8, a, b => Int.lor a b
  | .int16, a, b => Int.lor a b
  | .int32, a, b => Int.lor a b
  | .int64, a, b => Int.lor a b
  | .uint8, a, b => Int.lor a b
  | .float16, a, _ => a
  | .float32, a, _ => a
  | .float64, a, _ => a

/-- Bitwise xor per dtype: a ^ b; see bitwiseAndOp on the unvisited
branches. -/
def bitwiseXorOp : (dt : Dtype) → dt.carrier → dt.carrier → dt.carrier
  | .boolean, a, b => a != b
  | .int8, a, b => Int.xor a b
  | .int16, a, b => Int.xor a b
  | .int32, a, b => Int.xor a b
  | .int64, a, b => Int.xor a b
  | .uint8, a, b => Int.xor a b
  | .float16, a, _ => a
  | .float32, a, _ => a
  | .float64, a, _ => a

/-- Modelled from the spec: the contract failure raised by the
dispatch-by-dtype machinery when the output dtype is outside the
declared acceptance subset of the visitor (spec section 4.1). -/
inductive DtypeError where
  | dtypeError : DtypeError
deriving DecidableEq

/-- Modelled from the spec: the full visitor accepts every dtype. -/
def VisitDtypeAccepts (_ : Dtype) : Bool := true

/-- Modelled from the spec: the numeric visitor accepts numeric dtypes
only and fails the contract otherwise. -/
def VisitNumericDtypeAccepts (dt : Dtype) : Bool := dt.isNumeric

/-- Modelled from the spec: the integral visitor accepts integral dtypes
only and fails the contract otherwise. -/
def VisitIntegralDtypeAccepts (dt : Dtype) : Bool := dt.isIntegral

/-- Modelled from the spec: the element-wise execution engine
(elementwise.h, outside the given source; spec section 4.4) applied to
one input buffer and the captured per-element transform. -/
def Elementwise1 (f : α → α) (x1 : List α) : List α := x1.map f

/-- Modelled from the spec: the element-wise execution engine applied to
two input buffers of the same logical length. -/
def Elementwise2 (f : α → α → α) (x1 x2 : List α) : List α := List.zipWith f x1 x2

/-- Modelled from the spec: the array-array kernel generated by the
registration macros (kernel_regist.h, outside the given source): visit
the output dtype with the declared visitor and run the per-element
transform over the inputs.  Device checking and casting are external
collaborators; inputs are taken already in the output dtype, the
aliasing path of the casting layer, which is the case every claim below
exercises. -/
def eltwiseBinaryCall (accepts : Dtype → Bool)
    (op : (dt : Dtype) → dt.carrier → dt.carrier → dt.carrier)
    (dt : Dtype) (x1 x2 : List dt.carrier) : Except DtypeError (List dt.carrier) :=
  if accepts dt then .ok (Elementwise2 (op dt) x1 x2) else .error .dtypeError

/-- The array-scalar kernel Call shape from the source: visit the output
dtype, convert the scalar to the execution type (the identity here since
the scalar is taken already at that type), and run element-wise with the
scalar captured.  The dtype visit is modelled from the spec. -/
def eltwiseASCall (accepts : Dtype → Bool)
    (op : (dt : Dtype) → dt.carrier → dt.carrier → dt.carrier)
    (dt : Dtype) (x1 : List dt.carrier) (x2 : dt.carrier) :
    Except DtypeError (List dt.carrier) :=
  if accepts dt then .ok (Elementwise1 (fun v => op dt v x2) x1) else .error .dtypeError

/-- The scalar-array kernel Call shape from the source, the mirror image
of eltwiseASCall. -/
def eltwiseSACall (accepts : Dtype → Bool)
    (op : (dt : Dtype) → dt.carrier → dt.carrier → dt.carrier)
    (dt : Dtype) (x1 : dt.carrier) (x2 : List dt.carrier) :
    Except DtypeError (List dt.carrier) :=
  if accepts dt then .ok (Elementwise1 (fun v => op dt x1 v) x2) else .error .dtypeError

/-- AddKernel array-array Call: full visitor, Add transform. -/
def AddKernel.Call : (dt : Dtype) → List dt.carrier → List dt.carrier →
    Except DtypeError (List dt.carrier) :=
  eltwiseBinaryCall VisitDtypeAccepts addOp

/-- NativeAddASKernel Call: full visitor, Add transform with the scalar
captured. -/
def NativeAddASKernel.Call : (dt : Dtype) → List dt.carrier → dt.carrier →
    Except DtypeError (List dt.carrier) :=
  eltwiseASCall VisitDtypeAccepts addOp

/-- SubtractKernel array-array Call: numeric visitor, Subtract transform. -/
def SubtractKernel.Call : (dt : Dtype) → List dt.carrier → List dt.carrier →
    Except DtypeError (List dt.carrier) :=
  eltwiseBinaryCall VisitNumericDtypeAccepts subtractOp

/-- NativeSubtractASKernel Call: numeric visitor. -/
def NativeSubtractASKernel.Call : (dt : Dtype) → List dt.carrier → dt.carrier →
    Except DtypeError (List dt.carrier) :=
  eltwiseASCall VisitNumericDtypeAccepts subtractOp

/-- MultiplyKernel array-array Call: full visitor. -/
def MultiplyKernel.Call : (dt : Dtype) → List dt.carrier → List dt.carrier →
    Except DtypeError (List dt.carrier) :=
  eltwiseBinaryCall VisitDtypeAccepts multiplyOp

/-- NativeMultiplyASKernel Call: full visitor. -/
def NativeMultiplyASKernel.Call : (dt : Dtype) → List dt.carrier → dt.carrier →
    Except DtypeError (List dt.carrier) :=
  eltwiseASCall VisitDtypeAccepts multiplyOp

/-- FloorDivideKernel array-array Call: numeric visitor, FloorDivide
transform. -/
def FloorDivideKernel.Call : (dt : Dtype) → List dt.carrier → List dt.carrier →
    Except DtypeError (List dt.carrier) :=
  eltwiseBinaryCall VisitNumericDtypeAccepts floorDivideOp

/-- NativeFloorDivideASKernel Call: numeric visitor, FloorDivide with
the scalar divisor captured. -/
def NativeFloorDivideASKernel.Call : (dt : Dtype) → List dt.carrier → dt.carrier →
    Except DtypeError (List dt.carrier) :=
  eltwiseASCall VisitNumericDtypeAccepts floorDivideOp

/-- NativeFloorDivideSAKernel Call: numeric visitor, FloorDivide with
the scalar dividend captured. -/
def NativeFloorDivideSAKernel.Call : (dt : Dtype) → dt.carrier → List dt.carrier →
    Except DtypeError (List dt.carrier) :=
  eltwiseSACall VisitNumericDtypeAccepts floorDivideOp

/-- DivideKernel array-array Call: registered through the plain binary
kernel macro, hence the full visitor. -/
def DivideKernel.Call : (dt : Dtype) → List dt.carrier → List dt.carrier →
    Except DtypeError (List dt.carrier) :=
  eltwiseBinaryCall VisitDtypeAccepts divideOp

/-- NativeDivideASKernel Call: full visitor (VisitDtype in the source). -/
def NativeDivideASKernel.Call : (dt : Dtype) → List dt.carrier → dt.carrier →
    Except DtypeError (List dt.carrier) :=
  eltwiseASCall VisitDtypeAccepts divideOp

/-- NativeDivideSAKernel Call: full visitor (VisitDtype in the source). -/
def NativeDivideSAKernel.Call : (dt : Dtype) → dt.carrier → List dt.carrier →
    Except DtypeError (List dt.carrier) :=
  eltwiseSACall VisitDtypeAccepts divideOp

/-- BitwiseAndKernel array-array Call: integral visitor. -/
def BitwiseAndKernel.Call : (dt : Dtype) → List dt.carrier → List dt.carrier →
    Except DtypeError (List dt.carrier) :=
  eltwiseBinaryCall VisitIntegralDtypeAccepts bitwiseAndOp

/-- NativeBitwiseAndASKernel Call: integral visitor. -/
def NativeBitwiseAndASKernel.Call : (dt : Dtype) → List dt.carrier → dt.carrier →
    Except DtypeError (List dt.carrier) :=
  eltwiseASCall VisitIntegralDtypeAccepts bitwiseAndOp

/-- BitwiseOrKernel array-array Call: integral visitor. -/
def BitwiseOrKernel.Call : (dt : Dtype) → List dt.carrier → List dt.carrier →
    Except DtypeError (List dt.carrier) :=
  eltwiseBinaryCall VisitIntegralDtypeAccepts bitwiseOrOp

/-- NativeBitwiseOrASKernel Call: integral visitor. -/
def NativeBitwiseOrASKernel.Call : (dt : Dtype) → List dt.carrier → dt.carrier →
    Except DtypeError (List dt.carrier) :=
  eltwiseASCall VisitIntegralDtypeAccepts bitwiseOrOp

/-- BitwiseXorKernel array-array Call: integral visitor. -/
def BitwiseXorKernel.Call : (dt : Dtype) → List dt.carrier → List dt.carrier →
    Except DtypeError (List dt.carrier) :=
  eltwiseBinaryCall VisitIntegralDtypeAccepts bitwiseXorOp

/-- NativeBitwiseXorASKernel Call: integral visitor. -/
def NativeBitwiseXorASKernel.Call : (dt : Dtype) → List dt.carrier → dt.carrier →
    Except DtypeError (List dt.carrier) :=
  eltwiseASCall VisitIntegralDtypeAccepts bitwiseXorOp

/-- Specification-side definition for the refinement claim on the 8-bit
signed floor division, following the words of the spec: apply the 32-bit
rule to the operands and narrow the result back to 8 bits. -/
def specWidenNarrowFloorDivide8 (x y : Int) : Int :=
  castInt8 (FloorDivide.int32 x y)

/-- Specification-side definition for the refinement claim on the 16-bit
signed floor division: apply the 32-bit rule and narrow back to 16 bits. -/
def specWidenNarrowFloorDivide16 (x y : Int) : Int :=
  castInt16 (FloorDivide.int32 x y)

/-!
Core facts about the truncating division used by the signed FloorDivide
overloads: bounds and signs of Int.tmod, and the characterization of the
rational floor by integer bounds.
-/

lemma tmod_neg_left (a b : Int) : Int.tmod (-a) b = -(Int.tmod a b) := by
  rw [Int.tmod_def, Int.tmod_def, Int.neg_tdiv]; ring

lemma tmod_lb_pos (a : Int) {b : Int} (hb : 0 < b) : -b < Int.tmod a b := by
  rcases le_or_lt 0 a with ha | ha
  · have := Int.tmod_nonneg b ha; omega
  · have h1 := Int.tmod_lt_of_pos (-a) hb
    rw [tmod_neg_left] at h1; omega

lemma tmod_nonpos_of_nonpos {a : Int} (b : Int) (ha : a ≤ 0) : Int.tmod a b ≤ 0 := by
  have := Int.tmod_nonneg b (show (0:Int) ≤ -a by omega)
  rw [tmod_neg_left] at this; omega

lemma floor_eq_of_bounds {x y q : Int} (hy : 0 < y) (h1 : q * y ≤ x) (h2 : x < (q + 1) * y) :
    ⌊(x : ℚ) / (y : ℚ)⌋ = q := by
  have hyq : (0 : ℚ) < (y : ℚ) := by exact_mod_cast hy
  rw [Int.floor_eq_iff]
  constructor
  · rw [le_div_iff₀ hyq]; exact_mod_cast h1
  · rw [div_lt_iff₀ hyq]
    have h2q : (x : ℚ) < ((q + 1 : Int) : ℚ) * (y : ℚ) := by exact_mod_cast h2
    push_cast at h2q ⊢
    linarith

lemma floor_eq_of_bounds_neg {x y q : Int} (hy : y < 0) (h1 : x ≤ q * y) (h2 : (q + 1) * y < x) :
    ⌊(x : ℚ) / (y : ℚ)⌋ = q := by
  have hyq : (y : ℚ) < 0 := by exact_mod_cast hy
  rw [Int.floor_eq_iff]
  constructor
  · rw [le_div_iff_of_neg hyq]; exact_mod_cast h1
  · rw [div_lt_iff_of_neg hyq]
    have h2q : (((q + 1 : Int)) : ℚ) * (y : ℚ) < (x : ℚ) := by exact_mod_cast h2
    push_cast at h2q ⊢
    linarith

/-- The 32-bit FloorDivide formula computes the mathematical floor of
the exact rational quotient, for every nonzero divisor. -/
lemma floorDivide_int32_eq_floor (x y : Int) (hy : y ≠ 0) :
    FloorDivide.int32 x y = ⌊(x : ℚ) / (y : ℚ)⌋ := by
  have hx := Int.tdiv_add_tmod x y
  rcases lt_or_gt_of_ne hy with hneg | hpos
  · have h0y : ¬ (0 ≤ y) := by omega
    have hub : Int.tmod x y < -y := by
      have := Int.tmod_lt_of_pos x (show 0 < -y by omega)
      rwa [Int.tmod_neg] at this
    have hlb : y < Int.tmod x y := by
      have := tmod_lb_pos x (show 0 < -y by omega)
      rwa [Int.tmod_neg, neg_neg] at this
    rw [FloorDivide.int32, if_neg hy, if_neg h0y]
    by_cases hr : -(Int.tmod x y) < 0
    · rw [if_pos hr]
      symm
      apply floor_eq_of_bounds_neg hneg
      · nlinarith [hx]
      · nlinarith [hx]
    · rw [if_neg hr]
      symm
      apply floor_eq_of_bounds_neg hneg
      · nlinarith [hx]
      · nlinarith [hx]
  · have h0y : (0 : Int) ≤ y := by omega
    have hub : Int.tmod x y < y := Int.tmod_lt_of_pos x hpos
    have hlb : -y < Int.tmod x y := tmod_lb_pos x hpos
    rw [FloorDivide.int32, if_neg hy, if_pos h0y]
    by_cases hr : Int.tmod x y < 0
    · rw [if_pos hr]
      symm
      apply floor_eq_of_bounds hpos
      · nlinarith [hx]
      · nlinarith [hx]
    · rw [if_neg hr]
      symm
      apply floor_eq_of_bounds hpos
      · nlinarith [hx]
      · nlinarith [hx]

/-- The 64-bit overload is the same computation. -/
lemma floorDivide_int64_eq_floor (x y : Int) (hy : y ≠ 0) :
    FloorDivide.int64 x y = ⌊(x : ℚ) / (y : ℚ)⌋ :=
  floorDivide_int32_eq_floor x y hy

lemma castInt8_eq_self {n : Int} (h1 : -(2 ^ 7) ≤ n) (h2 : n < 2 ^ 7) : castInt8 n = n := by
  rw [castInt8, Int.bmod_def]; omega

lemma castInt16_eq_self {n : Int} (h1 : -(2 ^ 15) ≤ n) (h2 : n < 2 ^ 15) : castInt16 n = n := by
  rw [castInt16, Int.bmod_def]; omega

lemma castInt32_eq_self {n : Int} (h1 : -(2 ^ 31) ≤ n) (h2 : n < 2 ^ 31) : castInt32 n = n := by
  rw [castInt32, Int.bmod_def]; omega

/-- The rational floor of x / y stays inside a symmetric power-of-two
range around the range of x, provided the single overflowing pair
(x = -M, y = -1) is excluded. -/
lemma floor_div_range {M x y : Int} (hM : 0 < M) (hy : y ≠ 0)
    (h1 : -M ≤ x) (h2 : x < M) (hexc : ¬(x = -M ∧ y = -1)) :
    -M ≤ ⌊(x : ℚ) / (y : ℚ)⌋ ∧ ⌊(x : ℚ) / (y : ℚ)⌋ < M := by
  have hMq : (0 : ℚ) < (M : ℚ) := by exact_mod_cast hM
  have h1q : (-(M : ℚ)) ≤ (x : ℚ) := by exact_mod_cast h1
  have h2q : (x : ℚ) < (M : ℚ) := by exact_mod_cast h2
  rcases lt_or_gt_of_ne hy with hneg | hpos
  · have hy1 : (y : ℚ) ≤ -1 := by exact_mod_cast (show y ≤ -1 by omega)
    have hyq : (y : ℚ) < 0 := by linarith
    constructor
    · rw [Int.le_floor]
      push_cast
      rw [le_div_iff_of_neg hyq]
      nlinarith
    · rw [Int.floor_lt]
      rw [div_lt_iff_of_neg hyq]
      by_cases hxm : x = -M
      · have hym : y ≠ -1 := fun h => hexc ⟨hxm, h⟩
        have hy2 : (y : ℚ) ≤ -2 := by exact_mod_cast (show y ≤ -2 by omega)
        have hxq : (x : ℚ) = -(M : ℚ) := by rw [hxm]; push_cast; ring
        nlinarith
      · have hx : -M < x := lt_of_le_of_ne h1 (fun h => hxm h.symm)
        have hxq : -(M : ℚ) < (x : ℚ) := by exact_mod_cast hx
        nlinarith
  · have hy1 : (1 : ℚ) ≤ (y : ℚ) := by exact_mod_cast (show 1 ≤ y by omega)
    have hyq : (0 : ℚ) < (y : ℚ) := by linarith
    constructor
    · rw [Int.le_floor]
      push_cast
      rw [le_div_iff₀ hyq]
      nlinarith
    · rw [Int.floor_lt]
      rw [div_lt_iff₀ hyq]
      nlinarith

/-- The 8-bit FloorDivide equals the mathematical floor of the exact
quotient on all 8-bit operand values except the wrapping pair
(-128, -1). -/
lemma floorDivide_int8_eq_floor (x y : Int) (h1 : -(2 ^ 7) ≤ x) (h2 : x < 2 ^ 7)
    (h3 : -(2 ^ 7) ≤ y) (h4 : y < 2 ^ 7) (hy : y ≠ 0) (hexc : ¬(x = -(2 ^ 7) ∧ y = -1)) :
    FloorDivide.int8 x y = ⌊(x : ℚ) / (y : ℚ)⌋ := by
  have hr := floor_div_range (M := 2 ^ 7) (by norm_num) hy h1 h2 hexc
  rw [FloorDivide.int8, castInt32_eq_self (n := x) (by omega) (by omega),
    castInt32_eq_self (n := y) (by omega) (by omega),
    floorDivide_int32_eq_floor x y hy, castInt8_eq_self hr.1 hr.2]

/-- The 16-bit FloorDivide equals the mathematical floor of the exact
quotient on all 16-bit operand values except the wrapping pair
(-32768, -1). -/
lemma floorDivide_int16_eq_floor (x y : Int) (h1 : -(2 ^ 15) ≤ x) (h2 : x < 2 ^ 15)
    (h3 : -(2 ^ 15) ≤ y) (h4 : y < 2 ^ 15) (hy : y ≠ 0) (hexc : ¬(x = -(2 ^ 15) ∧ y = -1)) :
    FloorDivide.int16 x y = ⌊(x : ℚ) / (y : ℚ)⌋ := by
  have hr := floor_div_range (M := 2 ^ 15) (by norm_num) hy h1 h2 hexc
  rw [FloorDivide.int16, castInt32_eq_self (n := x) (by omega) (by omega),
    castInt32_eq_self (n := y) (by omega) (by omega),
    floorDivide_int32_eq_floor x y hy, castInt16_eq_self hr.1 hr.2]

/-- Claim C1, counterexample: at the int8 operand pair (-128, -1) the
code returns -128 (the widened quotient 128 wraps in the narrowing
cast), while the mathematical floor of the exact quotient is 128, so
the claim as stated fails. -/
theorem claim_C1_cex :
    FloorDivide.int8 (-128) (-1) ≠ ⌊((-128 : Int) : ℚ) / (((-1 : Int)) : ℚ)⌋ := by
  have h : ⌊((-128 : Int) : ℚ) / (((-1 : Int)) : ℚ)⌋ = 128 := by norm_num
  rw [h]
  decide

/-- Claim C1, amended: for every signed integer ElementType (int8,
int16, int32, int64) and all in-range values a, b with b nonzero,
excluding the single overflowing pair (type minimum, -1), FloorDivide
(a, b) equals the mathematical floor of the exact real quotient a / b;
in particular FloorDivide(-7, 2) is -4. -/
theorem claim_C1_amended :
    (∀ x y : Int, -(2 ^ 31) ≤ x → x < 2 ^ 31 → -(2 ^ 31) ≤ y → y < 2 ^ 31 → y ≠ 0 →
      ¬(x = -(2 ^ 31) ∧ y = -1) → FloorDivide.int32 x y = ⌊(x : ℚ) / (y : ℚ)⌋) ∧
    (∀ x y : Int, -(2 ^ 63) ≤ x → x < 2 ^ 63 → -(2 ^ 63) ≤ y → y < 2 ^ 63 → y ≠ 0 →
      ¬(x = -(2 ^ 63) ∧ y = -1) → FloorDivide.int64 x y = ⌊(x : ℚ) / (y : ℚ)⌋) ∧
    (∀ x y : Int, -(2 ^ 7) ≤ x → x < 2 ^ 7 → -(2 ^ 7) ≤ y → y < 2 ^ 7 → y ≠ 0 →
      ¬(x = -(2 ^ 7) ∧ y = -1) → FloorDivide.int8 x y = ⌊(x : ℚ) / (y : ℚ)⌋) ∧
    (∀ x y : Int, -(2 ^ 15) ≤ x → x < 2 ^ 15 → -(2 ^ 15) ≤ y → y < 2 ^ 15 → y ≠ 0 →
      ¬(x = -(2 ^ 15) ∧ y = -1) → FloorDivide.int16 x y = ⌊(x : ℚ) / (y : ℚ)⌋) ∧
    FloorDivide.int32 (-7) 2 = -4 := by
  refine ⟨fun x y _ _ _ _ hy _ => floorDivide_int32_eq_floor x y hy,
    fun x y _ _ _ _ hy _ => floorDivide_int64_eq_floor x y hy,
    fun x y h1 h2 h3 h4 hy hexc => floorDivide_int8_eq_floor x y h1 h2 h3 h4 hy hexc,
    fun x y h1 h2 h3 h4 hy hexc => floorDivide_int16_eq_floor x y h1 h2 h3 h4 hy hexc,
    by decide⟩

/-- Claim C1, witness: the amended theorem applied at int32 (-7, 2) and
int8 (-7, 2), where the floor is -4, not the truncated -3. -/
theorem claim_C1_witness :
    FloorDivide.int32 (-7) 2 = ⌊((-7 : Int) : ℚ) / ((2 : Int) : ℚ)⌋ ∧
    FloorDivide.int8 (-7) 2 = ⌊((-7 : Int) : ℚ) / ((2 : Int) : ℚ)⌋ :=
  ⟨claim_C1_amended.1 (-7) 2 (by decide) (by decide) (by decide) (by decide)
      (by decide) (by decide),
    claim_C1_amended.2.2.1 (-7) 2 (by decide) (by decide) (by decide) (by decide)
      (by decide) (by decide)⟩

/-- Claim C2: for every integer ElementType (int8, int16, int32, int64,
uint8) and every value a, FloorDivide(a, 0) returns 0; the guard takes
the zero branch, no error path exists. -/
theorem claim_C2 :
    (∀ a : Int, FloorDivide.int8 a 0 = 0) ∧
    (∀ a : Int, FloorDivide.int16 a 0 = 0) ∧
    (∀ a : Int, FloorDivide.int32 a 0 = 0) ∧
    (∀ a : Int, FloorDivide.int64 a 0 = 0) ∧
    (∀ a : Int, FloorDivide.uint8 a 0 = 0) := by
  refine ⟨fun a => ?_, fun a => ?_, fun a => rfl, fun a => rfl, fun a => rfl⟩
  · rw [FloorDivide.int8]
    have h0 : castInt32 0 = 0 := by decide
    rw [show castInt32 (0 : Int) = 0 from h0, FloorDivide.int32]
    rfl
  · rw [FloorDivide.int16]
    have h0 : castInt32 0 = 0 := by decide
    rw [show castInt32 (0 : Int) = 0 from h0, FloorDivide.int32]
    rfl

/-- Claim C6: on in-range 8-bit operands, FloorDivide(int8) equals the
32-bit FloorDivide of the widened operands narrowed back to int8, and
likewise for 16-bit operands narrowed back to int16; the right-hand
sides are the specification-side widen-compute-narrow definitions. -/
theorem claim_C6 :
    (∀ x y : Int, -(2 ^ 7) ≤ x → x < 2 ^ 7 → -(2 ^ 7) ≤ y → y < 2 ^ 7 →
      FloorDivide.int8 x y = specWidenNarrowFloorDivide8 x y) ∧
    (∀ x y : Int, -(2 ^ 15) ≤ x → x < 2 ^ 15 → -(2 ^ 15) ≤ y → y < 2 ^ 15 →
      FloorDivide.int16 x y = specWidenNarrowFloorDivide16 x y) := by
  constructor
  · intro x y h1 h2 h3 h4
    rw [FloorDivide.int8, specWidenNarrowFloorDivide8,
      castInt32_eq_self (n := x) (by omega) (by omega),
      castInt32_eq_self (n := y) (by omega) (by omega)]
  · intro x y h1 h2 h3 h4
    rw [FloorDivide.int16, specWidenNarrowFloorDivide16,
      castInt32_eq_self (n := x) (by omega) (by omega),
      castInt32_eq_self (n := y) (by omega) (by omega)]

/-- Claim C6, witness: the refinement equations applied at the concrete
8-bit pair (-7, 2) and 16-bit pair (-300, 7). -/
theorem claim_C6_witness :
    FloorDivide.int8 (-7) 2 = specWidenNarrowFloorDivide8 (-7) 2 ∧
    FloorDivide.int16 (-300) 7 = specWidenNarrowFloorDivide16 (-300) 7 :=
  ⟨claim_C6.1 (-7) 2 (by decide) (by decide) (by decide) (by decide),
    claim_C6.2 (-300) 7 (by decide) (by decide) (by decide) (by decide)⟩

/-- Claim C10: at the extreme pairs, int8 FloorDivide(-128, -1) returns
-128 and int16 FloorDivide(-32768, -1) returns -32768; the widened
32-bit computations produce 128 and 32768, which wrap in the narrowing
casts. -/
theorem claim_C10 :
    FloorDivide.int8 (-128) (-1) = -128 ∧
    FloorDivide.int32 (-128) (-1) = 128 ∧
    castInt8 128 = -128 ∧
    FloorDivide.int16 (-32768) (-1) = -32768 ∧
    FloorDivide.int32 (-32768) (-1) = 32768 ∧
    castInt16 32768 = -32768 := by
  decide

/-- Claim C3, counterexample: the Divide array-scalar kernel succeeds on
the non-numeric boolean dtype (the source registers Divide through the
full visitor, not the numeric one), so the claim that Divide fails on
non-numeric output dtypes is false. -/
theorem claim_C3_cex :
    Dtype.boolean.isNumeric = false ∧
    NativeDivideASKernel.Call .boolean [true] true = .ok [true] :=
  ⟨rfl, rfl⟩

/-- Claim C3, amended: the Subtract and FloorDivide kernels (array-array
and scalar variants) dispatch over numeric element types only and fail
as a contract violation on a non-numeric output ElementType, while Add,
Multiply and also Divide (all variants) use the full visitor and accept
every type. -/
theorem claim_C3_amended :
    (∀ dt : Dtype, dt.isNumeric = false →
      (∀ x1 x2 : List dt.carrier,
        SubtractKernel.Call dt x1 x2 = .error .dtypeError) ∧
      (∀ (x1 : List dt.carrier) (x2 : dt.carrier),
        NativeSubtractASKernel.Call dt x1 x2 = .error .dtypeError) ∧
      (∀ x1 x2 : List dt.carrier,
        FloorDivideKernel.Call dt x1 x2 = .error .dtypeError) ∧
      (∀ (x1 : List dt.carrier) (x2 : dt.carrier),
        NativeFloorDivideASKernel.Call dt x1 x2 = .error .dtypeError) ∧
      (∀ (x1 : dt.carrier) (x2 : List dt.carrier),
        NativeFloorDivideSAKernel.Call dt x1 x2 = .error .dtypeError)) ∧
    (∀ (dt : Dtype) (x1 x2 : List dt.carrier),
      AddKernel.Call dt x1 x2 = .ok (Elementwise2 (addOp dt) x1 x2)) ∧
    (∀ (dt : Dtype) (x1 x2 : List dt.carrier),
      MultiplyKernel.Call dt x1 x2 = .ok (Elementwise2 (multiplyOp dt) x1 x2)) ∧
    (∀ (dt : Dtype) (x1 x2 : List dt.carrier),
      DivideKernel.Call dt x1 x2 = .ok (Elementwise2 (divideOp dt) x1 x2)) ∧
    (∀ (dt : Dtype) (x1 : List dt.carrier) (x2 : dt.carrier),
      NativeDivideASKernel.Call dt x1 x2 =
        .ok (Elementwise1 (fun v => divideOp dt v x2) x1)) ∧
    (∀ (dt : Dtype) (x1 : dt.carrier) (x2 : List dt.carrier),
      NativeDivideSAKernel.Call dt x1 x2 =
        .ok (Elementwise1 (fun v => divideOp dt x1 v) x2)) := by
  refine ⟨fun dt h => ?_, fun dt x1 x2 => rfl, fun dt x1 x2 => rfl,
    fun dt x1 x2 => rfl, fun dt x1 x2 => rfl, fun dt x1 x2 => rfl⟩
  have ha : VisitNumericDtypeAccepts dt = false := h
  exact ⟨fun x1 x2 => by simp [SubtractKernel.Call, eltwiseBinaryCall, ha],
    fun x1 x2 => by simp [NativeSubtractASKernel.Call, eltwiseASCall, ha],
    fun x1 x2 => by simp [FloorDivideKernel.Call, eltwiseBinaryCall, ha],
    fun x1 x2 => by simp [NativeFloorDivideASKernel.Call, eltwiseASCall, ha],
    fun x1 x2 => by simp [NativeFloorDivideSAKernel.Call, eltwiseSACall, ha]⟩

/-- Claim C3, witness: the amended statement applied at the boolean
dtype for the rejecting kernels and at boolean and int32 for the
accepting ones. -/
theorem claim_C3_witness :
    SubtractKernel.Call .boolean [true] [false] = .error .dtypeError ∧
    NativeFloorDivideASKernel.Call .boolean [true] false = .error .dtypeError ∧
    DivideKernel.Call .boolean [true] [true] =
      .ok (Elementwise2 (divideOp .boolean) [true] [true]) :=
  ⟨(claim_C3_amended.1 .boolean rfl).1 [true] [false],
    (claim_C3_amended.1 .boolean rfl).2.2.2.1 [true] false,
    claim_C3_amended.2.2.2.1 .boolean [true] [true]⟩

/-- Claim C4, counterexample: the float FloorDivide at divisor 0
computes fmod(1, 0), which is NaN, and propagates it: the result is
non-finite, not 0, so the zero-divisor-yields-0 convention does not
extend to the floating-point paths. -/
theorem claim_C4_cex :
    FloorDivide.float32 (Flt.fin 1) (Flt.fin 0) ≠ Flt.fin 0 := by
  simp [FloorDivide.float32, Flt.fmod, Flt.sub, Flt.div, Flt.ltb]

/-- Claim C4, amended: the zero-divisor convention (return 0, no error)
holds for every integer ElementType of FloorDivide (int8, int16, int32,
int64, uint8); the floating-point paths (float16, float32, float64)
instead produce a non-finite value (NaN, via fmod by zero) at divisor 0. -/
theorem claim_C4_amended :
    (∀ a : Int, FloorDivide.int8 a 0 = 0 ∧ FloorDivide.int16 a 0 = 0 ∧
      FloorDivide.int32 a 0 = 0 ∧ FloorDivide.int64 a 0 = 0 ∧
      FloorDivide.uint8 a 0 = 0) ∧
    (∀ x : Flt, FloorDivide.float32 x (Flt.fin 0) = Flt.nonfin ∧
      FloorDivide.float64 x (Flt.fin 0) = Flt.nonfin ∧
      FloorDivide.float16 x (Flt.fin 0) = Flt.nonfin) := by
  constructor
  · intro a
    refine ⟨?_, ?_, rfl, rfl, rfl⟩
    · rw [FloorDivide.int8, show castInt32 (0 : Int) = 0 by decide, FloorDivide.int32]
      rfl
    · rw [FloorDivide.int16, show castInt32 (0 : Int) = 0 by decide, FloorDivide.int32]
      rfl
  · intro x
    rcases x with _ | q <;>
      simp [FloorDivide.float32, FloorDivide.float64, FloorDivide.float16,
        floatOfHalf, halfOfFloat, Flt.fmod, Flt.sub, Flt.div, Flt.ltb]

/-- Claim C5: the bitwise kernels dispatch over integral element types
only: on every integral dtype all six bitwise kernels succeed, and on
every floating-point dtype they fail as a contract violation. -/
theorem claim_C5 :
    (∀ dt : Dtype, dt.isIntegral = true →
      ∀ (x1 : List dt.carrier) (x2 : dt.carrier),
        BitwiseAndKernel.Call dt x1 [x2] =
          .ok (Elementwise2 (bitwiseAndOp dt) x1 [x2]) ∧
        NativeBitwiseAndASKernel.Call dt x1 x2 =
          .ok (Elementwise1 (fun v => bitwiseAndOp dt v x2) x1) ∧
        BitwiseOrKernel.Call dt x1 [x2] =
          .ok (Elementwise2 (bitwiseOrOp dt) x1 [x2]) ∧
        NativeBitwiseOrASKernel.Call dt x1 x2 =
          .ok (Elementwise1 (fun v => bitwiseOrOp dt v x2) x1) ∧
        BitwiseXorKernel.Call dt x1 [x2] =
          .ok (Elementwise2 (bitwiseXorOp dt) x1 [x2]) ∧
        NativeBitwiseXorASKernel.Call dt x1 x2 =
          .ok (Elementwise1 (fun v => bitwiseXorOp dt v x2) x1)) ∧
    (∀ dt : Dtype, dt.isFloat = true →
      ∀ (x1 : List dt.carrier) (x2 : dt.carrier),
        BitwiseAndKernel.Call dt x1 [x2] = .error .dtypeError ∧
        NativeBitwiseAndASKernel.Call dt x1 x2 = .error .dtypeError ∧
        BitwiseOrKernel.Call dt x1 [x2] = .error .dtypeError ∧
        NativeBitwiseOrASKernel.Call dt x1 x2 = .error .dtypeError ∧
        BitwiseXorKernel.Call dt x1 [x2] = .error .dtypeError ∧
        NativeBitwiseXorASKernel.Call dt x1 x2 = .error .dtypeError) := by
  constructor
  · intro dt h x1 x2
    have ha : VisitIntegralDtypeAccepts dt = true := h
    exact ⟨by simp [BitwiseAndKernel.Call, eltwiseBinaryCall, ha],
      by simp [NativeBitwiseAndASKernel.Call, eltwiseASCall, ha],
      by simp [BitwiseOrKernel.Call, eltwiseBinaryCall, ha],
      by simp [NativeBitwiseOrASKernel.Call, eltwiseASCall, ha],
      by simp [BitwiseXorKernel.Call, eltwiseBinaryCall, ha],
      by simp [NativeBitwiseXorASKernel.Call, eltwiseASCall, ha]⟩
  · intro dt h x1 x2
    have ha : VisitIntegralDtypeAccepts dt = false := by
      cases dt <;> simp_all [Dtype.isFloat, VisitIntegralDtypeAccepts, Dtype.isIntegral]
    exact ⟨by simp [BitwiseAndKernel.Call, eltwiseBinaryCall, ha],
      by simp [NativeBitwiseAndASKernel.Call, eltwiseASCall, ha],
      by simp [BitwiseOrKernel.Call, eltwiseBinaryCall, ha],
      by simp [NativeBitwiseOrASKernel.Call, eltwiseASCall, ha],
      by simp [BitwiseXorKernel.Call, eltwiseBinaryCall, ha],
      by simp [NativeBitwiseXorASKernel.Call, eltwiseASCall, ha]⟩

/-- Claim C5, witness: the dispatch statement applied at the integral
dtype int32 on the tensor [6] with scalar 3, and at the floating dtype
float32 on the tensor [1.0] with scalar 2.0. -/
theorem claim_C5_witness :
    BitwiseAndKernel.Call .int32 [6] [3] =
      .ok (Elementwise2 (bitwiseAndOp .int32) [6] [3]) ∧
    BitwiseXorKernel.Call .float32 [Flt.fin 1] [Flt.fin 2] = .error .dtypeError :=
  ⟨(claim_C5.1 .int32 rfl [6] 3).1,
    (claim_C5.2 .float32 rfl [Flt.fin 1] (Flt.fin 2)).2.2.2.2.1⟩

/-- Claim C7: for every operator with a scalar variant, every dtype its
visitor accepts, and every pair of values of that dtype, the scalar
kernel on a single-element tensor writes the same output as the
array-array kernel on single-element tensors. -/
theorem claim_C7 :
    ∀ (dt : Dtype) (x1 x2 : dt.carrier),
      (VisitDtypeAccepts dt = true →
        NativeAddASKernel.Call dt [x1] x2 = AddKernel.Call dt [x1] [x2]) ∧
      (VisitNumericDtypeAccepts dt = true →
        NativeSubtractASKernel.Call dt [x1] x2 = SubtractKernel.Call dt [x1] [x2]) ∧
      (VisitDtypeAccepts dt = true →
        NativeMultiplyASKernel.Call dt [x1] x2 = MultiplyKernel.Call dt [x1] [x2]) ∧
      (VisitDtypeAccepts dt = true →
        NativeDivideASKernel.Call dt [x1] x2 = DivideKernel.Call dt [x1] [x2]) ∧
      (VisitDtypeAccepts dt = true →
        NativeDivideSAKernel.Call dt x1 [x2] = DivideKernel.Call dt [x1] [x2]) ∧
      (VisitNumericDtypeAccepts dt = true →
        NativeFloorDivideASKernel.Call dt [x1] x2 = FloorDivideKernel.Call dt [x1] [x2]) ∧
      (VisitNumericDtypeAccepts dt = true →
        NativeFloorDivideSAKernel.Call dt x1 [x2] = FloorDivideKernel.Call dt [x1] [x2]) ∧
      (VisitIntegralDtypeAccepts dt = true →
        NativeBitwiseAndASKernel.Call dt [x1] x2 = BitwiseAndKernel.Call dt [x1] [x2]) ∧
      (VisitIntegralDtypeAccepts dt = true →
        NativeBitwiseOrASKernel.Call dt [x1] x2 = BitwiseOrKernel.Call dt [x1] [x2]) ∧
      (VisitIntegralDtypeAccepts dt = true →
        NativeBitwiseXorASKernel.Call dt [x1] x2 = BitwiseXorKernel.Call dt [x1] [x2]) := by
  intro dt x1 x2
  refine ⟨fun h => ?_, fun h => ?_, fun h => ?_, fun h => ?_, fun h => ?_,
    fun h => ?_, fun h => ?_, fun h => ?_, fun h => ?_, fun h => ?_⟩ <;>
    simp [NativeAddASKernel.Call, AddKernel.Call, NativeSubtractASKernel.Call,
      SubtractKernel.Call, NativeMultiplyASKernel.Call, MultiplyKernel.Call,
      NativeDivideASKernel.Call, NativeDivideSAKernel.Call, DivideKernel.Call,
      NativeFloorDivideASKernel.Call, NativeFloorDivideSAKernel.Call,
      FloorDivideKernel.Call, NativeBitwiseAndASKernel.Call, BitwiseAndKernel.Call,
      NativeBitwiseOrASKernel.Call, BitwiseOrKernel.Call,
      NativeBitwiseXorASKernel.Call, BitwiseXorKernel.Call,
      eltwiseASCall, eltwiseSACall, eltwiseBinaryCall, Elementwise1, Elementwise2, h]

/-- Claim C7, witness: the consistency statement applied at int32 with
tensor value -7 and scalar 2, for the Add, FloorDivide (both scalar
variants) and BitwiseAnd kernels. -/
theorem claim_C7_witness :
    NativeAddASKernel.Call .int32 [-7] 2 = AddKernel.Call .int32 [-7] [2] ∧
    NativeFloorDivideASKernel.Call .int32 [-7] 2 =
      FloorDivideKernel.Call .int32 [-7] [2] ∧
    NativeFloorDivideSAKernel.Call .int32 (-7) [2] =
      FloorDivideKernel.Call .int32 [-7] [2] ∧
    NativeBitwiseAndASKernel.Call .int32 [-7] 2 =
      BitwiseAndKernel.Call .int32 [-7] [2] :=
  ⟨(claim_C7 .int32 (-7) 2).1 rfl,
    (claim_C7 .int32 (-7) 2).2.2.2.2.2.1 rfl,
    (claim_C7 .int32 (-7) 2).2.2.2.2.2.2.1 rfl,
    (claim_C7 .int32 (-7) 2).2.2.2.2.2.2.2.1 rfl⟩

/-- Claim C8: the FloorDivide array-scalar kernel on the int32 tensor
[7, -7, 7, -7] with scalar 2 produces [3, -4, 3, -4], and on the uint8
tensor [5] with scalar 0 produces [0]. -/
theorem claim_C8 :
    NativeFloorDivideASKernel.Call .int32 [7, -7, 7, -7] 2 =
      .ok [3, -4, 3, -4] ∧
    NativeFloorDivideASKernel.Call .uint8 [5] 0 = .ok [0] := by
  exact ⟨rfl, rfl⟩

/-- Claim C9: floating FloorDivide computes (x - fmod(x, y)) / y minus
the sign-mismatch adjustment, giving FloorDivide(7.5, -2.0) = -4.0 and
FloorDivide(-7.5, 2.0) = -4.0 in both float widths, and the float16
overload promotes to 32-bit float, applies the float rule, and narrows
the result back. -/
theorem claim_C9 :
    FloorDivide.float32 (Flt.fin (15 / 2)) (Flt.fin (-2)) = Flt.fin (-4) ∧
    FloorDivide.float64 (Flt.fin (15 / 2)) (Flt.fin (-2)) = Flt.fin (-4) ∧
    FloorDivide.float32 (Flt.fin (-(15 / 2))) (Flt.fin 2) = Flt.fin (-4) ∧
    FloorDivide.float64 (Flt.fin (-(15 / 2))) (Flt.fin 2) = Flt.fin (-4) ∧
    (∀ x y : Flt, FloorDivide.float16 x y =
      halfOfFloat (FloorDivide.float32 (floatOfHalf x) (floatOfHalf y))) ∧
    FloorDivide.float16 (Flt.fin (-(15 / 2))) (Flt.fin 2) = Flt.fin (-4) := by
  have h1 : truncQ ((15 / 2 : ℚ) / (-2 : ℚ)) = -3 := by
    rw [truncQ, if_neg (by norm_num), Int.ceil_eq_iff]
    norm_num
  have h2 : truncQ ((-(15 / 2) : ℚ) / (2 : ℚ)) = -3 := by
    rw [truncQ, if_neg (by norm_num), Int.ceil_eq_iff]
    norm_num
  refine ⟨?_, ?_, ?_, ?_, fun x y => rfl, ?_⟩ <;>
    simp [FloorDivide.float32, FloorDivide.float64, FloorDivide.float16,
      floatOfHalf, halfOfFloat, Flt.fmod, Flt.sub, Flt.div, Flt.ltb, h1, h2] <;>
    norm_num
